import Mathlib

/-!
Shallow embedding of the iogb Game Boy emulator core (Rust sources under
src/) in Lean 4, together with theorems settling the frozen claims about
its specification.

Machine integers are modelled as `Nat` with explicit wrapping (`% 256`)
exactly where the Rust code wraps; fixed-size memories are modelled as
total functions `Nat → Nat`; code paths on which the Rust program would
abort return `Option.none`.
-/

namespace Iogb

/-- Truncation to an unsigned byte, the effect of Rust's `as u8` cast. -/
def u8 (x : Nat) : Nat := x % 256

/-- Pointwise update of a function-modelled memory at one index. -/
def updf {α : Type} (f : Nat → α) (i : Nat) (v : α) : Nat → α :=
  fun j => if j = i then v else f j

/-- Rust's `as i16` cast of a `u32`: wrap to a signed 16-bit value. -/
def i16_of_u32 (c : Nat) : Int :=
  let m := c % 65536
  if m < 32768 then (m : Int) else (m : Int) - 65536

/-! ## src/interrupt/interrupt.rs -/

/-- The five interrupt kinds (`enum Interrupt`). -/
inductive Interrupt
  | VBlank
  | LCDCStat
  | Timer
  | Serial
  | Joypad
  deriving DecidableEq

/-- The discriminant of `Interrupt` (`int as u8`): VBlank=1, LCDCStat=2,
Timer=4, Serial=8, Joypad=16. -/
def Interrupt.toBit : Interrupt → Nat
  | .VBlank => 1
  | .LCDCStat => 1 <<< 1
  | .Timer => 1 <<< 2
  | .Serial => 1 <<< 3
  | .Joypad => 1 <<< 4

/-- `Interrupt::get_addr`. -/
def Interrupt.get_addr : Interrupt → Nat
  | .VBlank => 0x0040
  | .LCDCStat => 0x0048
  | .Timer => 0x0050
  | .Serial => 0x0058
  | .Joypad => 0x0060

/-- `struct InterruptController` with fields `ime`, `iflag`, `ie`. -/
structure InterruptController where
  ime : Bool
  iflag : Nat
  ie : Nat
  deriving DecidableEq

/-- `InterruptController::new`. -/
def InterruptController.new : InterruptController :=
  { ime := false, iflag := 0, ie := 0 }

/-- `InterruptController::request_interrupt`: `iflag |= int as u8`. -/
def InterruptController.request_interrupt
    (ic : InterruptController) (int : Interrupt) : InterruptController :=
  { ic with iflag := ic.iflag ||| int.toBit }

/-- `InterruptController::reset_interrupt`: `iflag &= !(int as u8)`
(`!` is a `u8` complement, i.e. xor with 0xFF). -/
def InterruptController.reset_interrupt
    (ic : InterruptController) (int : Interrupt) : InterruptController :=
  { ic with iflag := ic.iflag &&& (0xFF ^^^ int.toBit) }

/-- Modelled from the spec: `enable_all_interrupts` is called by
`Cpu::ei`, `Cpu::di`, and the 0xFFFF arm of `Interconnect::writeb`, but
its definition is not present under src/; spec §4.3 says
"`enable_all(mask)` sets IE", so it stores the mask into `ie`. -/
def InterruptController.enable_all_interrupts
    (ic : InterruptController) (mask : Nat) : InterruptController :=
  { ic with ie := mask }

/-! ## src/cpu/cpu.rs — the EI/DI handlers

The opcode dispatch in `Cpu::dexec` maps 0xF3 to `self.di()` and 0xFB to
`self.ei()`.  Both handlers touch only the interrupt controller
(`self.interconnect.ic`) and return their cycle count, so they are
embedded as functions of the interrupt controller. -/

/-- `Cpu::ei` (opcode 0xFB): `self.interconnect.ic.enable_all_interrupts(1); 4`. -/
def Cpu.ei (ic : InterruptController) : InterruptController × Nat :=
  (ic.enable_all_interrupts 1, 4)

/-- `Cpu::di` (opcode 0xF3): `self.interconnect.ic.enable_all_interrupts(0); 4`. -/
def Cpu.di (ic : InterruptController) : InterruptController × Nat :=
  (ic.enable_all_interrupts 0, 4)

/-! ## src/timer/timer.rs -/

/-- `enum InputClockFreq`. -/
inductive InputClockFreq
  | Freq4096
  | Freq262144
  | Freq65536
  | Freq16384
  deriving DecidableEq

/-- `InputClockFreq::to_cycles`. -/
def InputClockFreq.to_cycles : InputClockFreq → Nat
  | .Freq4096 => 256
  | .Freq262144 => 4
  | .Freq65536 => 16
  | .Freq16384 => 64

/-- `struct Timer`.  `counter` is TIMA, `modulo` is TMA, `div` is DIV;
`idiv` and `icounter` are the internal cycle accumulators. -/
structure Timer where
  counter : Nat
  modulo : Nat
  div : Nat
  idiv : Nat
  icounter : Nat
  enabled : Bool
  input_freq : InputClockFreq
  deriving DecidableEq

/-- `Timer::new`. -/
def Timer.new : Timer :=
  { counter := 0, modulo := 0, div := 0, idiv := 0, icounter := 0,
    enabled := false, input_freq := .Freq4096 }

/-- `Timer::get_div`. -/
def Timer.get_div (t : Timer) : Nat := t.div

/-- `Timer::set_div`: writes force DIV to zero regardless of the value. -/
def Timer.set_div (t : Timer) (_val : Nat) : Timer := { t with div := 0 }

/-- `Timer::get_tima`. -/
def Timer.get_tima (t : Timer) : Nat := t.counter

/-- `Timer::set_tima`. -/
def Timer.set_tima (t : Timer) (val : Nat) : Timer := { t with counter := val }

/-- `Timer::get_tma`. -/
def Timer.get_tma (t : Timer) : Nat := t.modulo

/-- `Timer::set_tma`. -/
def Timer.set_tma (t : Timer) (val : Nat) : Timer := { t with modulo := val }

/-- `Timer::get_tac`: note the source encodes the two selector values for
65536/16384 Hz as decimal literals 0x10/0x11. -/
def Timer.get_tac (t : Timer) : Nat :=
  let ics : Nat :=
    match t.input_freq with
    | .Freq4096 => 0x00
    | .Freq262144 => 0x01
    | .Freq65536 => 0x10
    | .Freq16384 => 0x11
  ((if t.enabled then 1 else 0) <<< 2) ||| ics

/-- `Timer::set_tac`: `match val >> 2` with arms 0x00/0x01/0x10/0x11;
every other selector value hits the source's abort arm, hence `none`. -/
def Timer.set_tac (t : Timer) (val : Nat) : Option Timer :=
  match val >>> 2 with
  | 0x00 => some { t with input_freq := .Freq4096, enabled := (val &&& 0x01) ≠ 0 }
  | 0x01 => some { t with input_freq := .Freq262144, enabled := (val &&& 0x01) ≠ 0 }
  | 0x10 => some { t with input_freq := .Freq65536, enabled := (val &&& 0x01) ≠ 0 }
  | 0x11 => some { t with input_freq := .Freq16384, enabled := (val &&& 0x01) ≠ 0 }
  | _ => none

/-- `Timer::step_div`: adds the cycles to `idiv` and then, if `idiv`
reached 0xFF, increments DIV (wrapping) once and subtracts 0xFF. -/
def Timer.step_div (t : Timer) (cycles : Nat) : Timer :=
  let t := { t with idiv := t.idiv + cycles }
  if t.idiv ≥ 0xFF then
    { t with div := u8 (t.div + 1), idiv := t.idiv - 0xFF }
  else
    t

/-- `Timer::step`: steps DIV, then, when enabled, adds the cycles to
`icounter` and, if `icounter` reached the selected period, increments
TIMA once (or reloads it from TMA and requests the Timer interrupt when
TIMA is 0xFF).  `icounter` is never reduced. -/
def Timer.step (t : Timer) (cycles : Nat) (ic : InterruptController) :
    Timer × InterruptController :=
  let t := t.step_div cycles
  if !t.enabled then
    (t, ic)
  else
    let t := { t with icounter := t.icounter + cycles }
    if t.icounter ≥ t.input_freq.to_cycles then
      if t.counter ≠ 0xFF then
        ({ t with counter := u8 (t.counter + 1) }, ic)
      else
        ({ t with counter := t.modulo }, ic.request_interrupt .Timer)
    else
      (t, ic)

/-! ## src/cpu/cpu.rs — the register file -/

/-- `enum RegsW`: the 16-bit registers and register pairs. -/
inductive RegsW
  | PC
  | SP
  | AF
  | BC
  | DE
  | HL
  deriving DecidableEq

/-- `struct Registers`: eight 8-bit registers plus `pc` and `sp`. -/
structure Registers where
  a : Nat
  b : Nat
  c : Nat
  d : Nat
  e : Nat
  f : Nat
  h : Nat
  l : Nat
  pc : Nat
  sp : Nat
  deriving DecidableEq

/-- `Registers::readw`: pairs read big-endian (high byte first letter). -/
def Registers.readw (r : Registers) : RegsW → Nat
  | .PC => r.pc
  | .SP => r.sp
  | .AF => (r.a <<< 8) ||| r.f
  | .BC => (r.b <<< 8) ||| r.c
  | .DE => (r.d <<< 8) ||| r.e
  | .HL => (r.h <<< 8) ||| r.l

/-- `Registers::writew`: pairs store the high byte in the first letter
and the truncated low byte in the second; note the AF arm stores the low
byte into `f` unmasked. -/
def Registers.writew (r : Registers) (reg : RegsW) (val : Nat) : Registers :=
  match reg with
  | .PC => { r with pc := val }
  | .SP => { r with sp := val }
  | .AF => { r with a := u8 (val >>> 8), f := u8 val }
  | .BC => { r with b := u8 (val >>> 8), c := u8 val }
  | .DE => { r with d := u8 (val >>> 8), e := u8 val }
  | .HL => { r with h := u8 (val >>> 8), l := u8 val }

/-! ## src/cartridge/cartridge.rs -/

/-- `enum Mbc`. -/
inductive Mbc
  | None
  | One
  deriving DecidableEq

/-- `struct Cartridge`.  The ROM and RAM byte vectors are modelled as
total functions together with the ROM length; the `title` field is
irrelevant to memory behaviour and omitted. -/
structure Cartridge where
  mbc : Mbc
  rom : Nat → Nat
  rom_len : Nat
  rom_bank : Nat
  ram : Nat → Nat
  ram_bank : Nat
  ram_enable : Bool
  rom_mode_select : Bool

/-- `ROM_BANK_SZ`. -/
def ROM_BANK_SZ : Nat := 0x4000

/-- `RAM_BANK_SZ`. -/
def RAM_BANK_SZ : Nat := 0x2000

/-- `Cartridge::read_rom`: the effective index is masked by
`rom.len() - 1`. -/
def Cartridge.read_rom (c : Cartridge) (addr : Nat) : Nat :=
  let a :=
    match c.mbc with
    | .None => addr
    | .One =>
      if addr < ROM_BANK_SZ then addr
      else (addr &&& 0x3FFF) ||| (c.rom_bank * ROM_BANK_SZ)
  c.rom (a &&& (c.rom_len - 1))

/-- `Cartridge::read_ram`: returns 0 when RAM is disabled; when enabled,
banks by `ram_bank` unless `rom_mode_select` forces bank 0.  (The Rust
vector indexing can go out of bounds on an empty RAM; the function model
is total there.) -/
def Cartridge.read_ram (c : Cartridge) (addr : Nat) : Nat :=
  if c.ram_enable then
    let bank := if c.rom_mode_select then 0 else c.ram_bank
    c.ram ((addr &&& (RAM_BANK_SZ - 1)) + bank * RAM_BANK_SZ)
  else
    0

/-- `Cartridge::write_rom` (bank-control writes).  For MBC1: RAM enable
requires the written value to equal 0x0A exactly; the 0x4000–0x5FFF arm
updates the upper ROM-bank bits when `rom_mode_select` is TRUE and the
RAM bank when it is FALSE.  Addresses above 0x7FFF hit the abort arm. -/
def Cartridge.write_rom (c : Cartridge) (addr val : Nat) : Option Cartridge :=
  match c.mbc with
  | .None => some c
  | .One =>
    if addr ≤ 0x1FFF then
      some { c with ram_enable := val == 0xA }
    else if addr ≤ 0x3FFF then
      let rb := c.rom_bank &&& 0x60
      some { c with rom_bank := rb ||| (if val &&& 0x1F == 0 then 1 else val &&& 0x1F) }
    else if addr ≤ 0x5FFF then
      if c.rom_mode_select then
        some { c with rom_bank := (c.rom_bank &&& 0x1F) ||| ((val &&& 0x03) <<< 5) }
      else
        some { c with ram_bank := val &&& 0x03 }
    else if addr ≤ 0x7FFF then
      some { c with rom_mode_select := (val &&& 0x01) == 1 }
    else
      none

/-- `Cartridge::write_ram`: declared with an immutable receiver and an
empty body — it ignores both arguments and changes nothing. -/
def Cartridge.write_ram (c : Cartridge) (_addr _val : Nat) : Cartridge := c

/-! ## src/bootrom/bootrom.rs -/

/-- `struct Bootrom`: an optional 256-byte buffer. -/
structure Bootrom where
  buf : Option (Nat → Nat)

/-- `Bootrom::readb`: the buffered byte, or 0xFF when absent. -/
def Bootrom.readb (b : Bootrom) (addr : Nat) : Nat :=
  match b.buf with
  | some f => f addr
  | none => 0xFF

/-- `Bootrom::is_used`. -/
def Bootrom.is_used (b : Bootrom) : Bool :=
  match b.buf with
  | some _ => true
  | none => false

/-! ## src/gpu/gpu.rs -/

/-- `SCREEN_W` (src/gameboy.rs). -/
def SCREEN_W : Nat := 160

/-- `SCREEN_H` (src/gameboy.rs). -/
def SCREEN_H : Nat := 144

/-- `HBLANK_CYCLES`. -/
def HBLANK_CYCLES : Int := 204

/-- `ACCESSING_OAM_CYCLES`. -/
def ACCESSING_OAM_CYCLES : Int := 80

/-- `ACCESSING_VRAM_CYCLES`. -/
def ACCESSING_VRAM_CYCLES : Int := 172

/-- `VBLANK_FULL_LINE_CYCLES`: the source sets this to 576, not 456. -/
def VBLANK_FULL_LINE_CYCLES : Int := 576

/-- `enum Mode`. -/
inductive Mode
  | HBlank
  | VBlank
  | AccessingOam
  | AccessingVram
  deriving DecidableEq

/-- `Mode::as_flag`. -/
def Mode.as_flag : Mode → Nat
  | .HBlank => 0b00
  | .VBlank => 0b01
  | .AccessingOam => 0b10
  | .AccessingVram => 0b11

/-- `STAT_CMP` bit of the STAT register. -/
def STAT_CMP : Nat := 1 <<< 2

/-- `STAT_HBLANK_INT` bit. -/
def STAT_HBLANK_INT : Nat := 1 <<< 3

/-- `STAT_VBLANK_INT` bit. -/
def STAT_VBLANK_INT : Nat := 1 <<< 4

/-- `STAT_OAM_INT` bit. -/
def STAT_OAM_INT : Nat := 1 <<< 5

/-- `STAT_CMP_INT` bit. -/
def STAT_CMP_INT : Nat := 1 <<< 6

/-- The mask of defined `StatReg` bits; `from_bits_truncate` keeps
exactly these. -/
def STAT_MASK : Nat := STAT_CMP ||| STAT_HBLANK_INT ||| STAT_VBLANK_INT |||
  STAT_OAM_INT ||| STAT_CMP_INT

/-- `struct Tile`: 16 bytes of pixel data, modelled as a function. -/
structure Tile where
  pixels : Nat → Nat

/-- `Tile::default()`: all-zero pixels. -/
def Tile.default : Tile := { pixels := fun _ => 0 }

/-- `struct Sprite`; the `flags` bitfield is kept as a raw byte
(`SpriteFlags::from_bits_truncate` masks it to bits 4–7). -/
structure Sprite where
  x : Nat
  y : Nat
  tile_index : Nat
  flags : Nat

/-- `Sprite::new`. -/
def Sprite.new : Sprite := { x := 0, y := 0, tile_index := 0, flags := 0 }

/-- The mask of defined `SpriteFlags` bits. -/
def SPRITE_FLAGS_MASK : Nat := 0xF0

/-- `enum Colour`. -/
inductive Colour
  | White
  | LightGrey
  | DarkGrey
  | Black
  deriving DecidableEq

/-- The discriminant of `Colour` (`colour as u8`). -/
def Colour.toNat : Colour → Nat
  | .White => 0
  | .LightGrey => 1
  | .DarkGrey => 2
  | .Black => 3

/-- `Colour::from_bits`: values above 3 hit the source's abort arm.
Every call site first masks its argument with `& 0x03`, so the `none`
arm is unreachable in the program. -/
def Colour.from_bits : Nat → Option Colour
  | 0 => some .White
  | 1 => some .LightGrey
  | 2 => some .DarkGrey
  | 3 => some .Black
  | _ => none

/-- `struct Palette`. -/
structure Palette where
  darkest : Colour
  dark : Colour
  light : Colour
  lightest : Colour
  reg : Nat

/-- `Palette::new`. -/
def Palette.new : Palette :=
  { reg := 0, darkest := .White, dark := .White, light := .White,
    lightest := .White }

/-- `Palette::lookup`. -/
def Palette.lookup (p : Palette) (colour : Colour) : Colour :=
  match colour with
  | .Black => p.darkest
  | .DarkGrey => p.dark
  | .LightGrey => p.light
  | .White => p.lightest

/-- `Palette::set_reg`: each 2-bit field is masked before `from_bits`,
so the `getD` default is never used. -/
def Palette.set_reg (p : Palette) (val : Nat) : Palette :=
  { p with
    reg := val
    darkest := (Colour.from_bits ((val >>> 6) &&& 0x03)).getD .White
    dark := (Colour.from_bits ((val >>> 4) &&& 0x03)).getD .White
    light := (Colour.from_bits ((val >>> 2) &&& 0x03)).getD .White
    lightest := (Colour.from_bits (val &&& 0x03)).getD .White }

/-- `struct Gpu`.  `ticks` is an `i16` countdown, modelled as `Int`;
the tile set, tile maps, OAM and framebuffer are function-modelled. -/
structure Gpu where
  mode : Mode
  ticks : Int
  oam : Nat → Sprite
  buffer : Nat → Nat
  lcd_enable : Bool
  win_tile_map : Bool
  win_enable : Bool
  bg_tile_set : Bool
  bg_tile_map : Bool
  obj_size : Nat
  obj_enable : Bool
  bg_enable : Bool
  stat : Nat
  scroll_x : Nat
  scroll_y : Nat
  win_x : Nat
  win_y : Nat
  ly : Nat
  lyc : Nat
  bgp : Palette
  obp0 : Palette
  obp1 : Palette
  tile_set : Nat → Tile
  tile_map1 : Nat → Nat
  tile_map2 : Nat → Nat

/-- `Gpu::new`. -/
def Gpu.new : Gpu :=
  { ticks := ACCESSING_OAM_CYCLES
    mode := .AccessingOam
    oam := fun _ => Sprite.new
    buffer := fun _ => 0
    lcd_enable := false
    win_tile_map := false
    win_enable := false
    bg_tile_set := false
    bg_tile_map := false
    obj_size := 8
    obj_enable := false
    bg_enable := false
    stat := 0
    scroll_x := 0
    scroll_y := 0
    win_x := 0
    win_y := 0
    ly := 0
    lyc := 0
    bgp := Palette.new
    obp0 := Palette.new
    obp1 := Palette.new
    tile_set := fun _ => Tile.default
    tile_map1 := fun _ => 0
    tile_map2 := fun _ => 0 }

/-- `Gpu::read_tileset`: blocked (0xFF) during VRAM access. -/
def Gpu.read_tileset (g : Gpu) (addr : Nat) : Nat :=
  if g.mode = .AccessingVram then 0xFF
  else (g.tile_set (addr >>> 4)).pixels (addr % 16)

/-- `Gpu::write_tileset`: discarded during VRAM access. -/
def Gpu.write_tileset (g : Gpu) (addr val : Nat) : Gpu :=
  if g.mode = .AccessingVram then g
  else
    let t := g.tile_set (addr >>> 4)
    let t := { pixels := updf t.pixels (addr % 16) val : Tile }
    { g with tile_set := updf g.tile_set (addr >>> 4) t }

/-- `Gpu::read_tilemap1`. -/
def Gpu.read_tilemap1 (g : Gpu) (addr : Nat) : Nat :=
  if g.mode = .AccessingVram then 0xFF else g.tile_map1 addr

/-- `Gpu::write_tilemap1`. -/
def Gpu.write_tilemap1 (g : Gpu) (addr val : Nat) : Gpu :=
  if g.mode = .AccessingVram then g
  else { g with tile_map1 := updf g.tile_map1 addr val }

/-- `Gpu::read_tilemap2`. -/
def Gpu.read_tilemap2 (g : Gpu) (addr : Nat) : Nat :=
  if g.mode = .AccessingVram then 0xFF else g.tile_map2 addr

/-- `Gpu::write_tilemap2`. -/
def Gpu.write_tilemap2 (g : Gpu) (addr val : Nat) : Gpu :=
  if g.mode = .AccessingVram then g
  else { g with tile_map2 := updf g.tile_map2 addr val }

/-- `Gpu::write_lcdc_reg`.  A 1→0 transition of bit 7 forces LY to 0;
note the source compares `(val & 0x04) == 16`, which never holds, so
`obj_size` is always written as 0. -/
def Gpu.write_lcdc_reg (g : Gpu) (val : Nat) : Gpu :=
  let new_lcd_enable := (val &&& 0x80) ≠ 0
  let g := if g.lcd_enable ∧ ¬ new_lcd_enable then { g with ly := 0 } else g
  { g with
    lcd_enable := new_lcd_enable
    win_tile_map := (val &&& 0x40) ≠ 0
    win_enable := (val &&& 0x20) ≠ 0
    bg_tile_set := (val &&& 0x10) ≠ 0
    bg_tile_map := (val &&& 0x08) ≠ 0
    obj_size := if (val &&& 0x04) == 16 then 1 else 0
    obj_enable := (val &&& 0x02) ≠ 0
    bg_enable := (val &&& 0x01) ≠ 0 }

/-- `Gpu::read_lcdc_reg`. -/
def Gpu.read_lcdc_reg (g : Gpu) : Nat :=
  ((if g.lcd_enable then 1 else 0) <<< 7) |||
  ((if g.win_tile_map then 1 else 0) <<< 6) |||
  ((if g.win_enable then 1 else 0) <<< 5) |||
  ((if g.bg_tile_set then 1 else 0) <<< 4) |||
  ((if g.bg_tile_map then 1 else 0) <<< 3) |||
  ((if g.obj_size == 16 then 1 else 0) <<< 2) |||
  ((if g.obj_enable then 1 else 0) <<< 1) |||
  (if g.bg_enable then 1 else 0)

/-- `Gpu::write_wx`. -/
def Gpu.write_wx (g : Gpu) (val : Nat) : Gpu := { g with win_x := val }

/-- `Gpu::write_wy`. -/
def Gpu.write_wy (g : Gpu) (val : Nat) : Gpu := { g with win_y := val }

/-- `Gpu::read_wx`. -/
def Gpu.read_wx (g : Gpu) : Nat := g.win_x

/-- `Gpu::read_wy`. -/
def Gpu.read_wy (g : Gpu) : Nat := g.win_y

/-- `Gpu::write_scx`. -/
def Gpu.write_scx (g : Gpu) (val : Nat) : Gpu := { g with scroll_x := val }

/-- `Gpu::write_scy`. -/
def Gpu.write_scy (g : Gpu) (val : Nat) : Gpu := { g with scroll_y := val }

/-- `Gpu::read_scx`. -/
def Gpu.read_scx (g : Gpu) : Nat := g.scroll_x

/-- `Gpu::read_scy`. -/
def Gpu.read_scy (g : Gpu) : Nat := g.scroll_y

/-- `Gpu::read_ly`. -/
def Gpu.read_ly (g : Gpu) : Nat := g.ly

/-- `Gpu::write_ly`. -/
def Gpu.write_ly (g : Gpu) (val : Nat) : Gpu := { g with ly := val }

/-- `Gpu::read_lyc`. -/
def Gpu.read_lyc (g : Gpu) : Nat := g.lyc

/-- `Gpu::write_lyc`. -/
def Gpu.write_lyc (g : Gpu) (val : Nat) : Gpu := { g with lyc := val }

/-- `Gpu::read_stat`: stored interrupt-enable/compare bits or'd with the
current mode code. -/
def Gpu.read_stat (g : Gpu) : Nat := g.stat ||| g.mode.as_flag

/-- `Gpu::write_stat`: keeps only the stored CMP bit and installs the
written (truncated) flag bits. -/
def Gpu.write_stat (g : Gpu) (val : Nat) : Gpu :=
  { g with stat := (g.stat &&& STAT_CMP) ||| (val &&& STAT_MASK) }

/-- `Gpu::read_bgp`. -/
def Gpu.read_bgp (g : Gpu) : Nat := g.bgp.reg

/-- `Gpu::read_obp0`. -/
def Gpu.read_obp0 (g : Gpu) : Nat := g.obp0.reg

/-- `Gpu::read_obp1`. -/
def Gpu.read_obp1 (g : Gpu) : Nat := g.obp1.reg

/-- `Gpu::write_bgp`. -/
def Gpu.write_bgp (g : Gpu) (val : Nat) : Gpu := { g with bgp := g.bgp.set_reg val }

/-- `Gpu::write_obp0`. -/
def Gpu.write_obp0 (g : Gpu) (val : Nat) : Gpu := { g with obp0 := g.obp0.set_reg val }

/-- `Gpu::write_obp1`. -/
def Gpu.write_obp1 (g : Gpu) (val : Nat) : Gpu := { g with obp1 := g.obp1.set_reg val }

/-- `Gpu::check_cmp_int`: maintains the STAT compare bit and, on
equality with CMP-interrupt enabled, requests LCDC-Stat. -/
def Gpu.check_cmp_int (g : Gpu) (ic : InterruptController) :
    Gpu × InterruptController :=
  if g.ly ≠ g.lyc then
    ({ g with stat := g.stat &&& (0xFF ^^^ STAT_CMP) }, ic)
  else
    let g := { g with stat := g.stat ||| STAT_CMP }
    if g.stat &&& STAT_CMP_INT = STAT_CMP_INT then
      (g, ic.request_interrupt .LCDCStat)
    else
      (g, ic)

/-- `Gpu::change_mode`: installs the new mode, credits its cycle budget
to `ticks`, and raises the mode-entry interrupts. -/
def Gpu.change_mode (g : Gpu) (mode : Mode) (ic : InterruptController) :
    Gpu × InterruptController :=
  let g := { g with mode := mode }
  match g.mode with
  | .HBlank => ({ g with ticks := g.ticks + HBLANK_CYCLES }, ic)
  | .VBlank =>
    let g := { g with ticks := g.ticks + VBLANK_FULL_LINE_CYCLES }
    let ic := ic.request_interrupt .VBlank
    if g.stat &&& STAT_VBLANK_INT = STAT_VBLANK_INT then
      (g, ic.request_interrupt .LCDCStat)
    else
      (g, ic)
  | .AccessingOam =>
    let g := { g with ticks := g.ticks + ACCESSING_OAM_CYCLES }
    if g.stat &&& STAT_OAM_INT = STAT_OAM_INT then
      (g, ic.request_interrupt .LCDCStat)
    else
      (g, ic)
  | .AccessingVram => ({ g with ticks := g.ticks + ACCESSING_VRAM_CYCLES }, ic)

/-- `Gpu::render_background`: walks the 160 pixels of scanline LY and
stores the palette-mapped shades into the framebuffer.  The colour
number is at most 3, so the `getD` default on `from_bits` is dead.
(The Rust tile-map indexing can go out of bounds for large scroll
values; the function model is total there.) -/
def Gpu.render_background (g : Gpu) (start : Nat) : Gpu :=
  if !g.bg_enable then g
  else
    let y := (g.ly + g.scroll_y) % 256
    let row := y >>> 3
    (List.range SCREEN_W).foldl (fun g i =>
      let x := i + g.scroll_x
      let bit := x % 8
      let column := x >>> 3
      let tile_row := (y % 8) * 2
      let tile_num := (if !g.bg_tile_map then g.tile_map1 else g.tile_map2)
        (row * 32 + column)
      let tile :=
        if g.bg_tile_set then g.tile_set tile_num
        else
          g.tile_set (Int.toNat
            ((if tile_num < 128 then (tile_num : Int) else (tile_num : Int) - 256) + 128))
      let row_data0 := tile.pixels tile_row
      let row_data1 := tile.pixels (tile_row + 1)
      let colour_number := (((row_data0 >>> bit) &&& 1) * 2) ||| ((row_data1 >>> bit) &&& 1)
      let palette_colour := (Colour.from_bits colour_number).getD .White
      let colour := g.bgp.lookup palette_colour
      { g with buffer := updf g.buffer (start + i) colour.toNat }) g

/-- `Gpu::render_window`: only an (empty) early return on
`win_enable`; the state is unchanged either way. -/
def Gpu.render_window (g : Gpu) : Gpu :=
  if !g.win_enable then g else g

/-- `Gpu::render_sprites`: only an (empty) early return on
`obj_enable`; the state is unchanged either way. -/
def Gpu.render_sprites (g : Gpu) : Gpu :=
  if !g.obj_enable then g else g

/-- `Gpu::render_line`. -/
def Gpu.render_line (g : Gpu) : Gpu :=
  let start := g.ly * SCREEN_W
  (((g.render_background start).render_window).render_sprites)

/-- `Gpu::read_oam`: blocked (0xFF) during OAM/VRAM access; the
`addr % 4` dispatch is exhaustive, its abort arm is dead. -/
def Gpu.read_oam (g : Gpu) (addr : Nat) : Option Nat :=
  if g.mode = .AccessingVram ∨ g.mode = .AccessingOam then some 0xFF
  else
    let sprite := g.oam (addr >>> 2)
    match addr % 4 with
    | 0 => some sprite.y
    | 1 => some sprite.x
    | 2 => some sprite.tile_index
    | 3 => some sprite.flags
    | _ => none

/-- `Gpu::write_oam`: discarded during OAM/VRAM access. -/
def Gpu.write_oam (g : Gpu) (addr val : Nat) : Option Gpu :=
  if g.mode = .AccessingVram ∨ g.mode = .AccessingOam then some g
  else
    let sprite := g.oam (addr >>> 2)
    match addr % 4 with
    | 0 => some { g with oam := updf g.oam (addr >>> 2) ({ sprite with y := val }) }
    | 1 => some { g with oam := updf g.oam (addr >>> 2) ({ sprite with x := val }) }
    | 2 => some { g with oam := updf g.oam (addr >>> 2) ({ sprite with tile_index := val }) }
    | 3 => some { g with oam := updf g.oam (addr >>> 2) ({ sprite with flags := val &&& SPRITE_FLAGS_MASK }) }
    | _ => none

/-- `Gpu::step`: decrements the `i16` countdown by the cycles and, when
it reaches zero or below, performs the current mode's exit actions. -/
def Gpu.step (g : Gpu) (cycles : Nat) (ic : InterruptController) :
    Gpu × InterruptController :=
  if !g.lcd_enable then (g, ic)
  else
    let g := { g with ticks := g.ticks - i16_of_u32 cycles }
    if g.ticks > 0 then (g, ic)
    else
      match g.mode with
      | .HBlank =>
        let g := { g with ly := g.ly + 1 }
        let (g, ic) :=
          if g.ly ≥ SCREEN_H then g.change_mode .VBlank ic
          else g.change_mode .AccessingOam ic
        g.check_cmp_int ic
      | .VBlank =>
        let g := { g with ly := g.ly + 1 }
        if g.ly ≤ 153 then
          let g := { g with ticks := g.ticks + VBLANK_FULL_LINE_CYCLES }
          g.check_cmp_int ic
        else
          let g := { g with ly := 0 }
          let (g, ic) := g.change_mode .AccessingOam ic
          g.check_cmp_int ic
      | .AccessingOam => g.change_mode .AccessingVram ic
      | .AccessingVram =>
        let g := g.render_line
        g.change_mode .HBlank ic

/-! ## src/interconnect/interconnect.rs -/

/-- `struct Interconnect`: the bus, owning the cartridge, WRAM, HRAM
(`zram`), the boot latch and the subcomponents. -/
structure Interconnect where
  brom : Bootrom
  wram : Nat → Nat
  zram : Nat → Nat
  cart : Cartridge
  boot_mode : Bool
  ic : InterruptController
  timer : Timer
  gpu : Gpu

/-- `Interconnect::readb`: the strict address switch.  `none` marks the
addresses on which the Rust `match` reaches its abort arm — note the
source has no read arm for 0xFF50–0xFF7F. -/
def Interconnect.readb (s : Interconnect) (addr : Nat) : Option Nat :=
  if addr ≤ 0x00FF then
    some (if s.boot_mode then s.brom.readb addr else s.cart.read_rom addr)
  else if addr ≤ 0x7FFF then some (s.cart.read_rom addr)
  else if addr ≤ 0x97FF then some (s.gpu.read_tileset (addr &&& 0x17FF))
  else if addr ≤ 0x9BFF then some (s.gpu.read_tilemap1 (addr &&& 0x03FF))
  else if addr ≤ 0x9FFF then some (s.gpu.read_tilemap2 (addr &&& 0x03FF))
  else if addr ≤ 0xBFFF then some (s.cart.read_ram addr)
  else if addr ≤ 0xDFFF then some (s.wram (addr &&& 0x1FFF))
  else if addr ≤ 0xFDFF then some (s.wram (addr &&& 0x1FFF))
  else if addr ≤ 0xFE9F then s.gpu.read_oam (addr &&& 0x9F)
  else if addr ≤ 0xFEFF then some 0
  else if addr ≤ 0xFF03 then some 0
  else if addr = 0xFF04 then some s.timer.get_div
  else if addr = 0xFF05 then some s.timer.get_tima
  else if addr = 0xFF06 then some s.timer.get_tma
  else if addr = 0xFF07 then some s.timer.get_tac
  else if addr ≤ 0xFF0E then some 0
  else if addr = 0xFF0F then some s.ic.iflag
  else if addr ≤ 0xFF3F then some 0
  else if addr = 0xFF40 then some s.gpu.read_lcdc_reg
  else if addr = 0xFF41 then some s.gpu.read_stat
  else if addr = 0xFF42 then some s.gpu.read_scy
  else if addr = 0xFF43 then some s.gpu.read_scx
  else if addr = 0xFF44 then some s.gpu.read_ly
  else if addr = 0xFF45 then some s.gpu.read_lyc
  else if addr = 0xFF46 then some 0
  else if addr = 0xFF47 then some s.gpu.read_bgp
  else if addr = 0xFF48 then some s.gpu.read_obp0
  else if addr = 0xFF49 then some s.gpu.read_obp1
  else if addr = 0xFF4A then some s.gpu.read_wy
  else if addr = 0xFF4B then some s.gpu.read_wx
  else if addr ≤ 0xFF4F then some 0
  else if 0xFF80 ≤ addr ∧ addr ≤ 0xFFFE then some (s.zram (addr &&& 0x7F))
  else if addr = 0xFFFF then some s.ic.ie
  else none

/-- `Interconnect::writeb`: the strict address switch for writes.
`none` marks paths through which the Rust code would abort (an invalid
TAC selector, or a cartridge-control write the MBC rejects). -/
def Interconnect.writeb (s : Interconnect) (addr val : Nat) : Option Interconnect :=
  if addr ≤ 0x7FFF then (s.cart.write_rom addr val).map fun c => { s with cart := c }
  else if addr ≤ 0x97FF then some { s with gpu := s.gpu.write_tileset (addr &&& 0x17FF) val }
  else if addr ≤ 0x9BFF then some { s with gpu := s.gpu.write_tilemap1 (addr &&& 0x03FF) val }
  else if addr ≤ 0x9FFF then some { s with gpu := s.gpu.write_tilemap2 (addr &&& 0x03FF) val }
  else if addr ≤ 0xBFFF then some { s with cart := s.cart.write_ram addr val }
  else if addr ≤ 0xDFFF then some { s with wram := updf s.wram (addr &&& 0x1FFF) val }
  else if addr ≤ 0xFDFF then some { s with wram := updf s.wram (addr &&& 0x1FFF) val }
  else if addr ≤ 0xFE9F then (s.gpu.write_oam (addr &&& 0x9F) val).map fun g => { s with gpu := g }
  else if addr ≤ 0xFEFF then some s
  else if addr ≤ 0xFF03 then some s
  else if addr = 0xFF04 then some { s with timer := s.timer.set_div val }
  else if addr = 0xFF05 then some { s with timer := s.timer.set_tima val }
  else if addr = 0xFF06 then some { s with timer := s.timer.set_tma val }
  else if addr = 0xFF07 then (s.timer.set_tac val).map fun t => { s with timer := t }
  else if addr ≤ 0xFF0E then some s
  else if addr = 0xFF0F then some { s with ic := { s.ic with iflag := val } }
  else if addr ≤ 0xFF3F then some s
  else if addr = 0xFF40 then some { s with gpu := s.gpu.write_lcdc_reg val }
  else if addr = 0xFF41 then some { s with gpu := s.gpu.write_stat val }
  else if addr = 0xFF42 then some { s with gpu := s.gpu.write_scy val }
  else if addr = 0xFF43 then some { s with gpu := s.gpu.write_scx val }
  else if addr = 0xFF44 then some { s with gpu := s.gpu.write_ly val }
  else if addr = 0xFF45 then some { s with gpu := s.gpu.write_lyc val }
  else if addr = 0xFF46 then some s
  else if addr = 0xFF47 then some { s with gpu := s.gpu.write_bgp val }
  else if addr = 0xFF48 then some { s with gpu := s.gpu.write_obp0 val }
  else if addr = 0xFF49 then some { s with gpu := s.gpu.write_obp1 val }
  else if addr = 0xFF4A then some { s with gpu := s.gpu.write_wy val }
  else if addr = 0xFF4B then some { s with gpu := s.gpu.write_wx val }
  else if addr ≤ 0xFF4F then some s
  else if addr = 0xFF50 then some { s with boot_mode := !(val == 1) }
  else if addr ≤ 0xFF7F then some s
  else if addr ≤ 0xFFFE then some { s with zram := updf s.zram (addr &&& 0x7F) val }
  else if addr = 0xFFFF then some { s with ic := s.ic.enable_all_interrupts val }
  else none

/-- `Interconnect::step`: forwards the ticks to the timer and then the
PPU, returning the same tick count. -/
def Interconnect.step (s : Interconnect) (ticks : Nat) : Interconnect × Nat :=
  let (t, ic) := s.timer.step ticks s.ic
  let (g, ic) := s.gpu.step ticks ic
  ({ s with timer := t, gpu := g, ic := ic }, ticks)

/-- Applies a list of `(address, value)` bus writes in order, stopping
with `none` as soon as one of them aborts. -/
def Interconnect.writeList (s : Interconnect) : List (Nat × Nat) → Option Interconnect
  | [] => some s
  | p :: ps => (s.writeb p.1 p.2).bind fun s1 => s1.writeList ps

/-! ## Concrete states used by the evaluation theorems -/

/-- A concrete MBC1 cartridge in its post-construction state
(`rom_bank = 1`, RAM disabled, ROM mode), with an all-zero 32 KiB ROM. -/
def cart0 : Cartridge :=
  { mbc := .One, rom := fun _ => 0, rom_len := 0x8000, rom_bank := 1,
    ram := fun _ => 0, ram_bank := 0, ram_enable := false,
    rom_mode_select := false }

/-- A concrete bus state: no boot ROM buffer, zeroed memories, freshly
constructed subcomponents, boot latch set. -/
def s0 : Interconnect :=
  { brom := { buf := none }, wram := fun _ => 0, zram := fun _ => 0,
    cart := cart0, boot_mode := true, ic := InterruptController.new,
    timer := Timer.new, gpu := Gpu.new }

/-- `Gpu::new` with the LCD enabled: the initial PPU state for the
frame-timing run (mode OAM-search, 80-cycle budget, LY = 0). -/
def gpuOn : Gpu := { Gpu.new with lcd_enable := true }

/-- Runs `Gpu::step` over a list of cycle chunks, collecting LY after
every call. -/
def Gpu.runTrace (g : Gpu) (ic : InterruptController) : List Nat → List Nat
  | [] => []
  | c :: cs =>
    let p := g.step c ic
    p.1.ly :: Gpu.runTrace p.1 p.2 cs

/-- Runs `Gpu::step` over a list of cycle chunks, returning the final
PPU and interrupt-controller state. -/
def Gpu.runChunks (g : Gpu) (ic : InterruptController) : List Nat → Gpu × InterruptController
  | [] => (g, ic)
  | c :: cs =>
    let p := g.step c ic
    Gpu.runChunks p.1 p.2 cs

/-- `n` copies of a chunk list, concatenated. -/
def repChunks (n : Nat) (l : List Nat) : List Nat :=
  match n with
  | 0 => []
  | n + 1 => l ++ repChunks n l

/-- A partition of 70,224 T-cycles into `Gpu::step` calls: the three
mode phases of each of the 144 visible lines, then seven full 576-cycle
VBlank lines, then one 528-cycle remainder. -/
def c2Schedule : List Nat :=
  repChunks 144 [80, 172, 204] ++ repChunks 7 [576] ++ [528]

/-- The interrupt-controller state with IME set and all five interrupts
enabled, used for the EI/DI evaluation. -/
def icAll : InterruptController := { ime := true, iflag := 0, ie := 0x1F }

/-- All-zero register file. -/
def regs0 : Registers :=
  { a := 0, b := 0, c := 0, d := 0, e := 0, f := 0, h := 0, l := 0,
    pc := 0, sp := 0 }

/-- `Timer::new` with the TAC enable bit set (input clock 4096 Hz,
period 256 T-cycles). -/
def timerOn : Timer := { Timer.new with enabled := true }

/-- The MMIO addresses the spec lists individually: the timer registers
0xFF04–0xFF07, IF at 0xFF0F, the PPU registers 0xFF40–0xFF4B, and the
boot latch 0xFF50. -/
def mmioListed (a : Nat) : Prop :=
  (0xFF04 ≤ a ∧ a ≤ 0xFF07) ∨ a = 0xFF0F ∨ (0xFF40 ≤ a ∧ a ≤ 0xFF4B) ∨ a = 0xFF50

instance (a : Nat) : Decidable (mmioListed a) := by
  unfold mmioListed
  infer_instance

set_option maxRecDepth 100000

/-! ## Helper lemmas -/

/-- Combining a shifted high byte with a low byte below 256 is plain
positional arithmetic. -/
theorem shiftLeft_lor_eq (hi lo : Nat) (hlo : lo < 256) :
    (hi <<< 8) ||| lo = 256 * hi + lo := by
  have hlo2 : lo < 2 ^ 8 := hlo
  apply Nat.eq_of_testBit_eq
  intro j
  rw [Nat.testBit_lor, Nat.testBit_shiftLeft,
    show 256 * hi = 2 ^ 8 * hi by ring,
    Nat.testBit_mul_pow_two_add hi hlo2 j]
  by_cases hj : j < 8
  · have hj8 : ¬ (j ≥ 8) := by omega
    simp [hj, hj8]
  · have h8 : j ≥ 8 := by omega
    have hlt : lo < 2 ^ j :=
      lt_of_lt_of_le hlo2 (Nat.pow_le_pow_right (by norm_num) h8)
    simp [hj, h8, Nat.testBit_lt_two_pow hlt]

/-- A bus write of 1 to 0xFF50 clears the boot latch. -/
theorem writeb_ff50_one (s : Interconnect) :
    s.writeb 0xFF50 1 = some { s with boot_mode := false } := rfl

/-- A successful bus write anywhere except 0xFF50 leaves the boot latch
unchanged. -/
theorem writeb_preserves_boot (s s' : Interconnect) (a v : Nat)
    (h : s.writeb a v = some s') (ha : a ≠ 0xFF50) :
    s'.boot_mode = s.boot_mode := by
  unfold Interconnect.writeb at h
  by_cases c1 : a ≤ 0x7FFF
  · rw [if_pos c1] at h
    obtain ⟨y, hy, rfl⟩ := Option.map_eq_some'.mp h
    rfl
  rw [if_neg c1] at h
  by_cases c2 : a ≤ 0x97FF
  · rw [if_pos c2] at h; injection h with h2; subst h2; rfl
  rw [if_neg c2] at h
  by_cases c3 : a ≤ 0x9BFF
  · rw [if_pos c3] at h; injection h with h2; subst h2; rfl
  rw [if_neg c3] at h
  by_cases c4 : a ≤ 0x9FFF
  · rw [if_pos c4] at h; injection h with h2; subst h2; rfl
  rw [if_neg c4] at h
  by_cases c5 : a ≤ 0xBFFF
  · rw [if_pos c5] at h; injection h with h2; subst h2; rfl
  rw [if_neg c5] at h
  by_cases c6 : a ≤ 0xDFFF
  · rw [if_pos c6] at h; injection h with h2; subst h2; rfl
  rw [if_neg c6] at h
  by_cases c7 : a ≤ 0xFDFF
  · rw [if_pos c7] at h; injection h with h2; subst h2; rfl
  rw [if_neg c7] at h
  by_cases c8 : a ≤ 0xFE9F
  · rw [if_pos c8] at h
    obtain ⟨y, hy, rfl⟩ := Option.map_eq_some'.mp h
    rfl
  rw [if_neg c8] at h
  by_cases c9 : a ≤ 0xFEFF
  · rw [if_pos c9] at h; injection h with h2; subst h2; rfl
  rw [if_neg c9] at h
  by_cases c10 : a ≤ 0xFF03
  · rw [if_pos c10] at h; injection h with h2; subst h2; rfl
  rw [if_neg c10] at h
  by_cases c11 : a = 0xFF04
  · rw [if_pos c11] at h; injection h with h2; subst h2; rfl
  rw [if_neg c11] at h
  by_cases c12 : a = 0xFF05
  · rw [if_pos c12] at h; injection h with h2; subst h2; rfl
  rw [if_neg c12] at h
  by_cases c13 : a = 0xFF06
  · rw [if_pos c13] at h; injection h with h2; subst h2; rfl
  rw [if_neg c13] at h
  by_cases c14 : a = 0xFF07
  · rw [if_pos c14] at h
    obtain ⟨y, hy, rfl⟩ := Option.map_eq_some'.mp h
    rfl
  rw [if_neg c14] at h
  by_cases c15 : a ≤ 0xFF0E
  · rw [if_pos c15] at h; injection h with h2; subst h2; rfl
  rw [if_neg c15] at h
  by_cases c16 : a = 0xFF0F
  · rw [if_pos c16] at h; injection h with h2; subst h2; rfl
  rw [if_neg c16] at h
  by_cases c17 : a ≤ 0xFF3F
  · rw [if_pos c17] at h; injection h with h2; subst h2; rfl
  rw [if_neg c17] at h
  by_cases c18 : a = 0xFF40
  · rw [if_pos c18] at h; injection h with h2; subst h2; rfl
  rw [if_neg c18] at h
  by_cases c19 : a = 0xFF41
  · rw [if_pos c19] at h; injection h with h2; subst h2; rfl
  rw [if_neg c19] at h
  by_cases c20 : a = 0xFF42
  · rw [if_pos c20] at h; injection h with h2; subst h2; rfl
  rw [if_neg c20] at h
  by_cases c21 : a = 0xFF43
  · rw [if_pos c21] at h; injection h with h2; subst h2; rfl
  rw [if_neg c21] at h
  by_cases c22 : a = 0xFF44
  · rw [if_pos c22] at h; injection h with h2; subst h2; rfl
  rw [if_neg c22] at h
  by_cases c23 : a = 0xFF45
  · rw [if_pos c23] at h; injection h with h2; subst h2; rfl
  rw [if_neg c23] at h
  by_cases c24 : a = 0xFF46
  · rw [if_pos c24] at h; injection h with h2; subst h2; rfl
  rw [if_neg c24] at h
  by_cases c25 : a = 0xFF47
  · rw [if_pos c25] at h; injection h with h2; subst h2; rfl
  rw [if_neg c25] at h
  by_cases c26 : a = 0xFF48
  · rw [if_pos c26] at h; injection h with h2; subst h2; rfl
  rw [if_neg c26] at h
  by_cases c27 : a = 0xFF49
  · rw [if_pos c27] at h; injection h with h2; subst h2; rfl
  rw [if_neg c27] at h
  by_cases c28 : a = 0xFF4A
  · rw [if_pos c28] at h; injection h with h2; subst h2; rfl
  rw [if_neg c28] at h
  by_cases c29 : a = 0xFF4B
  · rw [if_pos c29] at h; injection h with h2; subst h2; rfl
  rw [if_neg c29] at h
  by_cases c30 : a ≤ 0xFF4F
  · rw [if_pos c30] at h; injection h with h2; subst h2; rfl
  rw [if_neg c30] at h
  by_cases c31 : a = 0xFF50
  · exact absurd c31 ha
  rw [if_neg c31] at h
  by_cases c32 : a ≤ 0xFF7F
  · rw [if_pos c32] at h; injection h with h2; subst h2; rfl
  rw [if_neg c32] at h
  by_cases c33 : a ≤ 0xFFFE
  · rw [if_pos c33] at h; injection h with h2; subst h2; rfl
  rw [if_neg c33] at h
  by_cases c34 : a = 0xFFFF
  · rw [if_pos c34] at h; injection h with h2; subst h2; rfl
  rw [if_neg c34] at h
  exact Option.noConfusion h

/-- A successful sequence of bus writes, none of which stores a value
other than 1 to 0xFF50, keeps the boot latch clear. -/
theorem writeList_preserves_boot (l : List (Nat × Nat)) :
    ∀ s s' : Interconnect, s.boot_mode = false →
    (∀ p ∈ l, p.1 = 0xFF50 → p.2 = 1) →
    s.writeList l = some s' → s'.boot_mode = false := by
  induction l with
  | nil =>
    intro s s' hb _ h
    injection h with h2
    subst h2
    exact hb
  | cons p ps ih =>
    intro s s' hb hl h
    unfold Interconnect.writeList at h
    rcases Option.bind_eq_some.mp h with ⟨s1, h1, h2⟩
    have hb1 : s1.boot_mode = false := by
      by_cases hp : p.1 = 0xFF50
      · have hv := hl p (List.mem_cons_self p ps) hp
        rw [hp, hv, writeb_ff50_one] at h1
        injection h1 with h3
        subst h3
        rfl
      · rw [writeb_preserves_boot s s1 p.1 p.2 h1 hp]
        exact hb
    exact ih s1 s' hb1 (fun q hq => hl q (List.mem_cons_of_mem p hq)) h2

/-! ## Claim theorems -/

/-- C1: the claim says opcode 0xF3 (DI) clears IME, opcode 0xFB (EI)
sets IME, and neither changes IE.  On the code (with the missing
`enable_all_interrupts` modelled from the spec as "store the mask into
IE"), DI leaves IME untouched and overwrites IE with 0, and EI leaves
IME untouched and overwrites IE with 1: starting from IME set and
IE = 0x1F, DI keeps IME true and zeroes IE; starting from a fresh
controller, EI keeps IME false and sets IE to 1. -/
theorem di_ei_touch_ie_not_ime :
    (Cpu.di icAll).1.ime = true ∧ (Cpu.di icAll).1.ie = 0 ∧
    (Cpu.ei InterruptController.new).1.ime = false ∧
    (Cpu.ei InterruptController.new).1.ie = 1 := by decide

/-- C2: the claim says that with the LCD enabled, over 70,224 T-cycles
LY takes each value 0..153 exactly once and VBlank is requested once,
with 456 T-cycles per VBlank line.  The code uses 576 T-cycles per
VBlank line, so a frame lasts 71,424 T-cycles: running the fresh
LCD-enabled PPU over a 70,224-cycle schedule, LY never reaches 153
(it only gets to 151), refuting the claim. -/
theorem vblank_line_cycles_bug :
    c2Schedule.sum = 70224 ∧
    153 ∉ Gpu.runTrace gpuOn InterruptController.new c2Schedule ∧
    (Gpu.runChunks gpuOn InterruptController.new c2Schedule).1.ly = 151 ∧
    (Gpu.runChunks gpuOn InterruptController.new c2Schedule).2.iflag = 1 := by
  refine ⟨by decide, by decide, by rfl, by rfl⟩

/-- C3: the claim says `Timer::step` subtracts the period from the TIMA
accumulator on each tick, giving at most one TIMA increment per full
period.  The code never subtracts and uses `if` instead of `while`:
with the 256-cycle period, a 256-cycle step followed by a 4-cycle step
increments TIMA twice within 260 cycles and leaves the accumulator at
260, contradicting the claim. -/
theorem timer_tima_accumulator_bug :
    (Timer.step timerOn 256 InterruptController.new).1.counter = 1 ∧
    (Timer.step timerOn 256 InterruptController.new).1.icounter = 256 ∧
    (Timer.step (Timer.step timerOn 256 InterruptController.new).1 4
      InterruptController.new).1.counter = 2 ∧
    (Timer.step (Timer.step timerOn 256 InterruptController.new).1 4
      InterruptController.new).1.icounter = 260 := by decide

/-- C4: the claim says that after N T-cycles DIV = (N/256) mod 256.
The code compares the accumulator against 0xFF = 255 (not 256),
subtracts 255, and increments at most once per call: a single 255-cycle
step yields DIV = 1 where the claim demands 0, and a single 512-cycle
step yields DIV = 1 where the claim demands 2. -/
theorem step_div_threshold_bug :
    (Timer.new.step_div 255).div = 1 ∧ 255 / 256 % 256 = 0 ∧
    (Timer.new.step_div 512).div = 1 ∧ 512 / 256 % 256 = 2 := by decide

/-- C5 (counterexample): the claim says reading AF after writing W
yields W &&& 0xFFF0.  Writing 0x000F to AF and reading it back returns
0x000F, not 0x0000: the code never masks the low nibble of F. -/
theorem af_readback_unmasked :
    (regs0.writew RegsW.AF 0x000F).readw RegsW.AF ≠ 0x000F &&& 0xFFF0 := by
  decide

/-- C5 (amended): for every 16-bit word W, writing W to any 16-bit
register or pair — including AF — and reading the same one back yields
exactly W; the low nibble of F is stored and read back unmasked. -/
theorem writew_readw_roundtrip (r : Registers) (p : RegsW) (W : Nat)
    (h : W < 65536) : (r.writew p W).readw p = W := by
  have hhi : W >>> 8 = W / 256 := by
    rw [Nat.shiftRight_eq_div_pow]
  have hdiv : W / 256 < 256 := by omega
  have hmod : W % 256 < 256 := by omega
  cases p
  all_goals try rfl
  all_goals simp only [Registers.writew, Registers.readw, u8]
  all_goals rw [hhi, Nat.mod_eq_of_lt hdiv, shiftLeft_lor_eq _ _ hmod]
  all_goals omega

/-- C5 (witness): the round-trip theorem applied to the all-zero
register file, pair AF and the word 0x1234. -/
theorem writew_readw_roundtrip_witness :
    (regs0.writew RegsW.AF 0x1234).readw RegsW.AF = 0x1234 :=
  writew_readw_roundtrip regs0 RegsW.AF 0x1234 (by norm_num)

/-- C6: the claim says a 0x4000–0x5FFF write updates the upper ROM-bank
bits when mode_select is false and the RAM bank when it is true.  The
code has the branches the other way around: on the fresh MBC1 cartridge
(mode flag false), writing 0x03 to 0x4000 leaves rom_bank at 1 and sets
ram_bank to 3, where the claim demands rom_bank = 0x61 and ram_bank
unchanged. -/
theorem mbc1_mode_branches_swapped :
    cart0.rom_mode_select = false ∧
    (cart0.write_rom 0x4000 0x03).map (fun c => (c.rom_bank, c.ram_bank)) =
      some (1, 3) := by decide

/-- C7: the claim says any value whose low nibble is 0x0A enables
cartridge RAM.  The code compares the whole byte against 0x0A: writing
0x1A (low nibble 0x0A) to 0x0000 leaves RAM disabled. -/
theorem mbc1_ram_enable_strict :
    0x1A &&& 0x0F = 0x0A ∧
    (cart0.write_rom 0x0000 0x1A).map Cartridge.ram_enable = some false ∧
    (cart0.write_rom 0x0000 0x0A).map Cartridge.ram_enable = some true := by
  decide

/-- C8 (counterexample): the claim says that once 1 is written to
0xFF50 the boot overlay is disabled permanently, under every subsequent
sequence of bus writes.  Writing 1 to 0xFF50 and then 0 to 0xFF50 sets
`boot_mode` back to true: the latch is re-armed by any non-1 write. -/
theorem boot_latch_rearmed :
    ((s0.writeb 0xFF50 1).bind fun s1 =>
      s1.writeb 0xFF50 0).map Interconnect.boot_mode = some true := by rfl

/-- C8 (amended): after a write of 1 to 0xFF50, the boot overlay stays
disabled under every subsequent sequence of bus writes in which every
write to 0xFF50 stores 1, and reads of 0x0000–0x00FF then go to
cartridge ROM. -/
theorem boot_latch_amended (s s1 s2 : Interconnect) (l : List (Nat × Nat))
    (h1 : s.writeb 0xFF50 1 = some s1)
    (hl : ∀ p ∈ l, p.1 = 0xFF50 → p.2 = 1)
    (h2 : s1.writeList l = some s2) :
    s2.boot_mode = false ∧
    ∀ a, a ≤ 0xFF → s2.readb a = some (s2.cart.read_rom a) := by
  have hb1 : s1.boot_mode = false := by
    rw [writeb_ff50_one] at h1
    injection h1 with h3
    subst h3
    rfl
  have hb2 := writeList_preserves_boot l s1 s2 hb1 hl h2
  refine ⟨hb2, fun a ha => ?_⟩
  unfold Interconnect.readb
  rw [if_pos (show a ≤ 0x00FF from ha), hb2]
  try rfl

/-- C8 (witness): the amended theorem applied to the concrete state
`s0`, the 0xFF50 unlock write, and a following WRAM write. -/
theorem boot_latch_amended_witness :
    ({ s0 with boot_mode := false, wram := updf s0.wram 0 0x42 } :
      Interconnect).boot_mode = false ∧
    ({ s0 with boot_mode := false, wram := updf s0.wram 0 0x42 } :
      Interconnect).readb 0 =
      some (({ s0 with boot_mode := false, wram := updf s0.wram 0 0x42 } :
        Interconnect).cart.read_rom 0) := by
  have h := boot_latch_amended s0 { s0 with boot_mode := false }
    { s0 with boot_mode := false, wram := updf s0.wram 0 0x42 }
    [(0xC000, 0x42)] rfl
    (by
      intro p hp h50
      simp only [List.mem_singleton] at hp
      subst hp
      exact absurd h50 (by decide))
    rfl
  exact ⟨h.1, h.2 0 (by norm_num)⟩

/-- C9 (counterexample): the claim says every non-listed MMIO address
in 0xFF00–0xFF7F reads as 0, and readb never aborts on that range.
Reading 0xFF51 (not a listed register) hits the match's abort arm. -/
theorem readb_ff51_aborts :
    ¬ mmioListed 0xFF51 ∧ s0.readb 0xFF51 = none := by
  exact ⟨by decide, rfl⟩

/-- C9 (amended): for every MMIO address in 0xFF00–0xFF7F that is not
a listed register, writes are ignored; reads return 0 only up to
0xFF4F, while reads of 0xFF51–0xFF7F (and of the write-only latch
0xFF50) hit the abort arm of `Interconnect::readb`. -/
theorem mmio_unlisted_amended (s : Interconnect) (a v : Nat)
    (h1 : 0xFF00 ≤ a) (h2 : a ≤ 0xFF7F) (h3 : ¬ mmioListed a) :
    s.writeb a v = some s ∧
    (a ≤ 0xFF4F → s.readb a = some 0) ∧
    (0xFF50 ≤ a → s.readb a = none) := by
  unfold mmioListed at h3
  refine ⟨?_, fun ha => ?_, fun ha => ?_⟩
  · unfold Interconnect.writeb
    rw [if_neg (by omega : ¬ a ≤ 0x7FFF), if_neg (by omega : ¬ a ≤ 0x97FF),
      if_neg (by omega : ¬ a ≤ 0x9BFF), if_neg (by omega : ¬ a ≤ 0x9FFF),
      if_neg (by omega : ¬ a ≤ 0xBFFF), if_neg (by omega : ¬ a ≤ 0xDFFF),
      if_neg (by omega : ¬ a ≤ 0xFDFF), if_neg (by omega : ¬ a ≤ 0xFE9F),
      if_neg (by omega : ¬ a ≤ 0xFEFF)]
    by_cases d1 : a ≤ 0xFF03
    · rw [if_pos d1]
    rw [if_neg d1, if_neg (by omega : ¬ a = 0xFF04),
      if_neg (by omega : ¬ a = 0xFF05), if_neg (by omega : ¬ a = 0xFF06),
      if_neg (by omega : ¬ a = 0xFF07)]
    by_cases d2 : a ≤ 0xFF0E
    · rw [if_pos d2]
    rw [if_neg d2, if_neg (by omega : ¬ a = 0xFF0F)]
    by_cases d3 : a ≤ 0xFF3F
    · rw [if_pos d3]
    rw [if_neg d3, if_neg (by omega : ¬ a = 0xFF40),
      if_neg (by omega : ¬ a = 0xFF41), if_neg (by omega : ¬ a = 0xFF42),
      if_neg (by omega : ¬ a = 0xFF43), if_neg (by omega : ¬ a = 0xFF44),
      if_neg (by omega : ¬ a = 0xFF45), if_neg (by omega : ¬ a = 0xFF46),
      if_neg (by omega : ¬ a = 0xFF47), if_neg (by omega : ¬ a = 0xFF48),
      if_neg (by omega : ¬ a = 0xFF49), if_neg (by omega : ¬ a = 0xFF4A),
      if_neg (by omega : ¬ a = 0xFF4B)]
    by_cases d4 : a ≤ 0xFF4F
    · rw [if_pos d4]
    rw [if_neg d4, if_neg (by omega : ¬ a = 0xFF50), if_pos h2]
  · unfold Interconnect.readb
    rw [if_neg (by omega : ¬ a ≤ 0x00FF), if_neg (by omega : ¬ a ≤ 0x7FFF),
      if_neg (by omega : ¬ a ≤ 0x97FF), if_neg (by omega : ¬ a ≤ 0x9BFF),
      if_neg (by omega : ¬ a ≤ 0x9FFF), if_neg (by omega : ¬ a ≤ 0xBFFF),
      if_neg (by omega : ¬ a ≤ 0xDFFF), if_neg (by omega : ¬ a ≤ 0xFDFF),
      if_neg (by omega : ¬ a ≤ 0xFE9F), if_neg (by omega : ¬ a ≤ 0xFEFF)]
    by_cases d1 : a ≤ 0xFF03
    · rw [if_pos d1]
    rw [if_neg d1, if_neg (by omega : ¬ a = 0xFF04),
      if_neg (by omega : ¬ a = 0xFF05), if_neg (by omega : ¬ a = 0xFF06),
      if_neg (by omega : ¬ a = 0xFF07)]
    by_cases d2 : a ≤ 0xFF0E
    · rw [if_pos d2]
    rw [if_neg d2, if_neg (by omega : ¬ a = 0xFF0F)]
    by_cases d3 : a ≤ 0xFF3F
    · rw [if_pos d3]
    rw [if_neg d3, if_neg (by omega : ¬ a = 0xFF40),
      if_neg (by omega : ¬ a = 0xFF41), if_neg (by omega : ¬ a = 0xFF42),
      if_neg (by omega : ¬ a = 0xFF43), if_neg (by omega : ¬ a = 0xFF44),
      if_neg (by omega : ¬ a = 0xFF45), if_neg (by omega : ¬ a = 0xFF46),
      if_neg (by omega : ¬ a = 0xFF47), if_neg (by omega : ¬ a = 0xFF48),
      if_neg (by omega : ¬ a = 0xFF49), if_neg (by omega : ¬ a = 0xFF4A),
      if_neg (by omega : ¬ a = 0xFF4B), if_pos (by omega : a ≤ 0xFF4F)]
  · unfold Interconnect.readb
    rw [if_neg (by omega : ¬ a ≤ 0x00FF), if_neg (by omega : ¬ a ≤ 0x7FFF),
      if_neg (by omega : ¬ a ≤ 0x97FF), if_neg (by omega : ¬ a ≤ 0x9BFF),
      if_neg (by omega : ¬ a ≤ 0x9FFF), if_neg (by omega : ¬ a ≤ 0xBFFF),
      if_neg (by omega : ¬ a ≤ 0xDFFF), if_neg (by omega : ¬ a ≤ 0xFDFF),
      if_neg (by omega : ¬ a ≤ 0xFE9F), if_neg (by omega : ¬ a ≤ 0xFEFF),
      if_neg (by omega : ¬ a ≤ 0xFF03), if_neg (by omega : ¬ a = 0xFF04),
      if_neg (by omega : ¬ a = 0xFF05), if_neg (by omega : ¬ a = 0xFF06),
      if_neg (by omega : ¬ a = 0xFF07), if_neg (by omega : ¬ a ≤ 0xFF0E),
      if_neg (by omega : ¬ a = 0xFF0F), if_neg (by omega : ¬ a ≤ 0xFF3F),
      if_neg (by omega : ¬ a = 0xFF40), if_neg (by omega : ¬ a = 0xFF41),
      if_neg (by omega : ¬ a = 0xFF42), if_neg (by omega : ¬ a = 0xFF43),
      if_neg (by omega : ¬ a = 0xFF44), if_neg (by omega : ¬ a = 0xFF45),
      if_neg (by omega : ¬ a = 0xFF46), if_neg (by omega : ¬ a = 0xFF47),
      if_neg (by omega : ¬ a = 0xFF48), if_neg (by omega : ¬ a = 0xFF49),
      if_neg (by omega : ¬ a = 0xFF4A), if_neg (by omega : ¬ a = 0xFF4B),
      if_neg (by omega : ¬ a ≤ 0xFF4F),
      if_neg (by omega : ¬ (0xFF80 ≤ a ∧ a ≤ 0xFFFE)),
      if_neg (by omega : ¬ a = 0xFFFF)]

/-- C9 (witness): the amended theorem applied at the unlisted address
0xFF03 on the concrete state `s0`. -/
theorem mmio_unlisted_amended_witness :
    s0.writeb 0xFF03 7 = some s0 ∧ s0.readb 0xFF03 = some 0 := by
  have h := mmio_unlisted_amended s0 0xFF03 7 (by norm_num) (by norm_num)
    (by decide)
  exact ⟨h.1, h.2.1 (by norm_num)⟩

/-- C10: every bus write to 0xA000–0xBFFF goes to
`Cartridge::write_ram`, which changes nothing: the whole bus state is
returned unchanged, so no subsequent read can observe the write. -/
theorem cart_ram_writes_ignored (s : Interconnect) (a v : Nat)
    (h1 : 0xA000 ≤ a) (h2 : a ≤ 0xBFFF) :
    s.writeb a v = some s := by
  unfold Interconnect.writeb
  rw [if_neg (by omega : ¬ a ≤ 0x7FFF), if_neg (by omega : ¬ a ≤ 0x97FF),
    if_neg (by omega : ¬ a ≤ 0x9BFF), if_neg (by omega : ¬ a ≤ 0x9FFF),
    if_pos h2]
  rfl

/-- C10 (witness): the theorem applied at address 0xA123 with value
0x55 on the concrete state `s0`. -/
theorem cart_ram_writes_ignored_witness : s0.writeb 0xA123 0x55 = some s0 :=
  cart_ram_writes_ignored s0 0xA123 0x55 (by norm_num) (by norm_num)

end Iogb
